import Mathlib

/-!
Verification of the Ballista Flight service core
(`src/rust/ballista/src/distributed/flight_service.rs`).

The development shallowly embeds the service's data model and handlers:

* `ConcurrencyGuard` with `inc`/`dec` mirrors the bounded admission counter.
  The Rust counter is a `usize`; we model it as `Nat` and model the
  debug-build underflow panic of `dec` at zero by returning `none`.
* `TaskStatus` and the task-status registry (a `HashMap<String, TaskStatus>`)
  are embedded as an association list where insertion shadows older entries,
  exactly matching the observable `HashMap` get/insert semantics.
* `do_get`, `get_schema`, `get_flight_info`, `do_action` are embedded as pure
  functions from request and service state to response and new state.
  External collaborators that live outside `src/` (the protobuf decoder, the
  executor's `do_task`/`collect`/`execute_query`, and the planner stages) are
  taken as function parameters, following the collaborator contracts given in
  the specification.
* Concurrency is embedded as a small-step system: an `Event` is either an
  inbound `Execute` request or the terminal write of a spawned background
  runner; `run` folds a trace of events from the initial service state.
  A `none` outcome of a step models a panic (guard underflow).
-/

deriving instance DecidableEq for Except

/-- gRPC status codes used by the service (tonic `Status` constructors that
appear in the source). -/
inductive StatusCode where
  | internal
  | invalid_argument
  | resource_exhausted
  | already_exists
  | aborted
  | not_found
  | unimplemented
deriving DecidableEq, Repr

/-- tonic `Status`: a code together with a message. -/
structure Status where
  code : StatusCode
  message : String
deriving DecidableEq, Repr

def Status.internal (m : String) : Status := ⟨StatusCode.internal, m⟩

def Status.invalid_argument (m : String) : Status := ⟨StatusCode.invalid_argument, m⟩

def Status.resource_exhausted (m : String) : Status := ⟨StatusCode.resource_exhausted, m⟩

def Status.already_exists (m : String) : Status := ⟨StatusCode.already_exists, m⟩

def Status.aborted (m : String) : Status := ⟨StatusCode.aborted, m⟩

def Status.not_found (m : String) : Status := ⟨StatusCode.not_found, m⟩

/-- `BallistaError` (crate error type); `dbg` stands for its `{:?}` Debug
rendering, which is all the service ever looks at (`to_tonic_err` formats the
error with `format!("{:?}", e)`). -/
structure BallistaError where
  dbg : String
deriving DecidableEq, Repr

/-- `fn to_tonic_err(e: &BallistaError) -> Status { Status::internal(format!("{:?}", e)) }` -/
def to_tonic_err (e : BallistaError) : Status := Status.internal e.dbg

namespace arrow

/-- Arrow data types (only `Utf8` is mentioned by the service). -/
inductive DataType where
  | utf8
  | other (tag : Nat)
deriving DecidableEq, Repr

/-- Arrow `Field::new(name, data_type, nullable)`. -/
structure Field where
  name : String
  data_type : DataType
  nullable : Bool
deriving DecidableEq, Repr

/-- Arrow `Schema::new(fields)`. -/
structure Schema where
  fields : List Field
deriving DecidableEq, Repr

end arrow

/-- A columnar record batch; opaque to the service, so modelled by an opaque
identifier. -/
structure RecordBatch where
  id : Nat
deriving DecidableEq, Repr

/-- `ShufflePartition { schema, data }`: a schema plus an ordered sequence of
record batches. -/
structure ShufflePartition where
  schema : arrow.Schema
  data : List RecordBatch
deriving DecidableEq, Repr

/-- `ShuffleId` from `physical_plan`; opaque to the service. -/
structure ShuffleId where
  id : Nat
deriving DecidableEq, Repr

/-- An execution task; the service only ever calls `task.key()`, so the task
is modelled by its key. -/
structure ExecutionTask where
  key : String
deriving DecidableEq, Repr

/-- `enum TaskStatus { Running, Completed(ShuffleId), Failed(String) }` -/
inductive TaskStatus where
  | running
  | completed (sid : ShuffleId)
  | failed (reason : String)
deriving DecidableEq, Repr

/-- `struct ConcurrencyGuard { concurrency_level: usize, max_concurrency: usize }` -/
structure ConcurrencyGuard where
  concurrency_level : Nat
  max_concurrency : Nat
deriving DecidableEq, Repr

/-- `ConcurrencyGuard::inc`: check-and-increment under the bound; on success
returns the new level, at the bound returns `resource_exhausted` and leaves
the guard untouched. -/
def ConcurrencyGuard.inc (g : ConcurrencyGuard) :
    Except Status (Nat × ConcurrencyGuard) :=
  if g.concurrency_level < g.max_concurrency then
    let g1 : ConcurrencyGuard :=
      { g with concurrency_level := g.concurrency_level + 1 }
    Except.ok (g1.concurrency_level, g1)
  else
    Except.error (Status.resource_exhausted "too many concurrent tasks")

/-- `ConcurrencyGuard::dec`: `self.concurrency_level -= 1` with no bound
check. On a `usize` this underflow-panics in debug builds when the level is
zero, modelled by `none`. -/
def ConcurrencyGuard.dec (g : ConcurrencyGuard) : Option ConcurrencyGuard :=
  if g.concurrency_level = 0 then none
  else some { g with concurrency_level := g.concurrency_level - 1 }

/-- A sequence of `k` consecutive `inc` calls, stopping at the first
rejection. -/
def incSeq : Nat → ConcurrencyGuard → Except Status ConcurrencyGuard
  | 0, g => Except.ok g
  | k + 1, g =>
    match ConcurrencyGuard.inc g with
    | Except.ok (_, g1) => incSeq k g1
    | Except.error e => Except.error e

/-- Lookup in an association list: the first binding of the key, matching
`HashMap::get`. -/
def mapGet {α : Type} (k : String) : List (String × α) → Option α
  | [] => none
  | (k1, v) :: rest => if k1 = k then some v else mapGet k rest

/-- Insertion into an association list by shadowing: a later binding hides
earlier ones under `mapGet`, matching `HashMap::insert` observably. -/
def mapInsert {α : Type} (k : String) (v : α) (m : List (String × α)) :
    List (String × α) :=
  (k, v) :: m

/-- Remove the first occurrence of a key from a list (used to retire a
finished background runner from the pending set). -/
def removeFirst (k : String) : List String → List String
  | [] => []
  | x :: rest => if x = k then rest else x :: removeFirst k rest

/-- A logical query plan; opaque to the service. -/
structure LogicalPlan where
  tag : Nat
deriving DecidableEq, Repr

/-- A physical query plan; opaque to the service. -/
structure PhysicalPlan where
  tag : Nat
deriving DecidableEq, Repr

/-- A job/stage graph produced by `create_job`; opaque to the service. -/
structure Job where
  tag : Nat
deriving DecidableEq, Repr

namespace physical_plan

/-- `physical_plan::Action`: the decoded request payload. -/
inductive Action where
  | Execute (task : ExecutionTask)
  | FetchShuffle (sid : ShuffleId)
  | InteractiveQuery (plan : LogicalPlan)
deriving DecidableEq, Repr

end physical_plan

/-- A Flight `Ticket`: the opaque encoded bytes of an action. -/
structure Ticket where
  ticket : List Nat
deriving DecidableEq, Repr

/-- A Flight `FlightDescriptor` with its `path` and encoded `cmd`. -/
structure FlightDescriptor where
  path : List String
  cmd : List Nat
deriving DecidableEq, Repr

/-- A Flight `Action` message (`flight::Action`), as received by `do_action`:
a type string and an opaque body. -/
structure FlightAction where
  action_type : String
  body : List Nat
deriving DecidableEq, Repr

/-- A framed element of a `do_get` response stream: either the leading
schema-only message or a data-batch message. -/
inductive FlightData where
  | schemaMsg (s : arrow.Schema)
  | batchMsg (b : RecordBatch)
deriving DecidableEq, Repr

/-- A Flight `SchemaResult`, built from a schema. -/
structure SchemaResult where
  schema : arrow.Schema
deriving DecidableEq, Repr

/-- A Flight `FlightInfo` response (never actually built by the source's
live code paths). -/
structure FlightInfo where
  tag : Nat
deriving DecidableEq, Repr

/-- The mutable state of `BallistaFlightService`: the results cache, the
task-status registry and the concurrency guard, plus the set of keys whose
spawned background runner has not yet written its terminal status (the
`thread::spawn`ed runners in flight). -/
structure ServiceState where
  results_cache : List (String × ShufflePartition)
  task_status_map : List (String × TaskStatus)
  concurrent_tasks : ConcurrencyGuard
  pending : List String
deriving DecidableEq, Repr

/-- The response-stream framing common to all three `do_get` branches:
one schema-only message, then one message per data batch, in stored order. -/
def frameResults (results : ShufflePartition) : List FlightData :=
  FlightData.schemaMsg results.schema :: results.data.map FlightData.batchMsg

/-- The hard-coded partition built in the `TaskStatus::Completed` branch of
`do_get`: a single non-nullable Utf8 field named `shuffle_id` and an empty
batch list (the source comment reads "write empty results stream to
client"). -/
def emptyResults : ShufflePartition :=
  { schema := { fields := [{ name := "shuffle_id"
                             data_type := arrow.DataType.utf8
                             nullable := false }] }
    data := [] }

/-- The `physical_plan::Action::Execute` branch of `do_get`, keyed by
`task.key()`: consult the registry; on `None` admit through the guard,
insert `Running`, spawn a runner (recorded in `pending`) and answer
`already_exists("task is now running")`; on `Running`/`Failed`/`Completed`
answer without touching any state. -/
def do_get_execute (task : ExecutionTask) (s : ServiceState) :
    Except Status (List FlightData) × ServiceState :=
  let key := task.key
  match mapGet key s.task_status_map with
  | none =>
    match ConcurrencyGuard.inc s.concurrent_tasks with
    | Except.error e => (Except.error e, s)
    | Except.ok (_, g1) =>
      (Except.error (Status.already_exists "task is now running"),
        { s with
          concurrent_tasks := g1
          task_status_map := mapInsert key TaskStatus.running s.task_status_map
          pending := key :: s.pending })
  | some TaskStatus.running =>
    (Except.error (Status.already_exists "task is still running"), s)
  | some (TaskStatus.failed reason) =>
    (Except.error (Status.aborted reason), s)
  | some (TaskStatus.completed _) =>
    (Except.ok (frameResults emptyResults), s)

/-- The terminal write of a spawned background runner for `key`: insert
`Completed(shuffle_id)` on success or `Failed(format!("{:?}", e))` on error,
then `counter.dec()`; `none` models the underflow panic of `dec`. -/
def runner_finish (key : String) (outcome : Except String ShuffleId)
    (s : ServiceState) : Option ServiceState :=
  let newStatus : TaskStatus :=
    match outcome with
    | Except.ok sid => TaskStatus.completed sid
    | Except.error e => TaskStatus.failed e
  match ConcurrencyGuard.dec s.concurrent_tasks with
  | none => none
  | some g1 =>
    some { s with
           task_status_map := mapInsert key newStatus s.task_status_map
           concurrent_tasks := g1
           pending := removeFirst key s.pending }

/-- `do_get`: decode the ticket (failure maps through `to_tonic_err`), then
dispatch on the action. The decoder and the executor collaborators
(`collect`, `execute_query`) live outside `src/` and are taken as
parameters. -/
def do_get
    (decode_protobuf : List Nat → Except BallistaError physical_plan.Action)
    (collect : ShuffleId → Except BallistaError ShufflePartition)
    (execute_query : LogicalPlan → Except BallistaError ShufflePartition)
    (ticket : Ticket) (s : ServiceState) :
    Except Status (List FlightData) × ServiceState :=
  match decode_protobuf ticket.ticket with
  | Except.error e => (Except.error (to_tonic_err e), s)
  | Except.ok action =>
    match action with
    | physical_plan.Action.Execute task => do_get_execute task s
    | physical_plan.Action.FetchShuffle sid =>
      match collect sid with
      | Except.error e => (Except.error (to_tonic_err e), s)
      | Except.ok results => (Except.ok (frameResults results), s)
    | physical_plan.Action.InteractiveQuery plan =>
      match execute_query plan with
      | Except.error e => (Except.error (to_tonic_err e), s)
      | Except.ok results => (Except.ok (frameResults results), s)

/-- `get_schema`: reads `request.path[0]` with no emptiness check — an empty
path indexes out of bounds and panics, modelled by `none`; otherwise the
results cache is consulted and a miss answers `not_found("Invalid uuid")`. -/
def get_schema (request : FlightDescriptor) (s : ServiceState) :
    Option (Except Status SchemaResult) :=
  match request.path with
  | [] => none
  | uuid :: _ =>
    match mapGet uuid s.results_cache with
    | some results => some (Except.ok { schema := results.schema })
    | none => some (Except.error (Status.not_found "Invalid uuid"))

/-- `get_flight_info`: decode the command, and for an `InteractiveQuery` run
the three planner stages in strict sequence; when all succeed the source
answers `Status::invalid_argument("not implemented yet")`. Any other action
answers `invalid_argument("Invalid action")`. The decoder and the planner
stages live outside `src/` and are taken as parameters. -/
def get_flight_info
    (decode_protobuf : List Nat → Except BallistaError physical_plan.Action)
    (create_physical_plan : LogicalPlan → Except BallistaError PhysicalPlan)
    (ensure_requirements : PhysicalPlan → Except BallistaError PhysicalPlan)
    (create_job : PhysicalPlan → Except BallistaError Job)
    (request : FlightDescriptor) : Except Status FlightInfo :=
  match decode_protobuf request.cmd with
  | Except.error e => Except.error (to_tonic_err e)
  | Except.ok action =>
    match action with
    | physical_plan.Action.InteractiveQuery logical_plan =>
      match create_physical_plan logical_plan with
      | Except.error e => Except.error (to_tonic_err e)
      | Except.ok plan =>
        match ensure_requirements plan with
        | Except.error e => Except.error (to_tonic_err e)
        | Except.ok plan2 =>
          match create_job plan2 with
          | Except.error e => Except.error (to_tonic_err e)
          | Except.ok _job =>
            Except.error (Status.invalid_argument "not implemented yet")
    | _ => Except.error (Status.invalid_argument "Invalid action")

/-- `do_action`: decode the body (failure maps through `to_tonic_err`); on a
successful decode the source hits `unimplemented!()`, a panic, modelled by
`none`. -/
def do_action
    (decode_protobuf : List Nat → Except BallistaError physical_plan.Action)
    (action : FlightAction) (s : ServiceState) :
    Option (Except Status Unit × ServiceState) :=
  match decode_protobuf action.body with
  | Except.error e => some (Except.error (to_tonic_err e), s)
  | Except.ok _ => none

/-- An event touching the registry/guard state: an inbound `Execute`
request, or the terminal write of the background runner spawned for `key`
(`finishOk` carries the produced `ShuffleId`, `finishErr` the formatted
failure reason). -/
inductive Event where
  | exec (task : ExecutionTask)
  | finishOk (key : String) (sid : ShuffleId)
  | finishErr (key : String) (reason : String)
deriving DecidableEq, Repr

/-- One step of the system: an `Execute` request runs `do_get_execute`; a
runner-finish event fires only for a key with a spawned, unfinished runner
(otherwise no such event exists and the state is unchanged). `none` models a
panic. -/
def step (s : ServiceState) (e : Event) : Option ServiceState :=
  match e with
  | Event.exec t => some (do_get_execute t s).2
  | Event.finishOk k sid =>
    if k ∈ s.pending then runner_finish k (Except.ok sid) s else some s
  | Event.finishErr k r =>
    if k ∈ s.pending then runner_finish k (Except.error r) s else some s

/-- The state built by `BallistaFlightService::new(executor, max_concurrency)`:
empty cache, empty registry, guard at level 0. -/
def initState (limit : Nat) : ServiceState :=
  { results_cache := []
    task_status_map := []
    concurrent_tasks := { concurrency_level := 0, max_concurrency := limit }
    pending := [] }

/-- Run a trace of events from a state; `none` models a panic somewhere in
the trace. -/
def runFrom (s : ServiceState) : List Event → Option ServiceState
  | [] => some s
  | e :: rest =>
    match step s e with
    | none => none
    | some s1 => runFrom s1 rest

/-- Run a trace of events from the initial state of a service with bound
`limit`. -/
def run (limit : Nat) (evs : List Event) : Option ServiceState :=
  runFrom (initState limit) evs

/-- The status code of an error response, if the response is an error. -/
def respStatusCode {α : Type} : Except Status α → Option StatusCode
  | Except.error st => some st.code
  | Except.ok _ => none

/-- The inductive invariant of the service: the guard level counts the
in-flight runners, stays under the bound, every pending key is `Running` in
the registry, and no key has two runners. -/
def SysInv (s : ServiceState) : Prop :=
  s.concurrent_tasks.concurrency_level = s.pending.length ∧
  s.concurrent_tasks.concurrency_level ≤ s.concurrent_tasks.max_concurrency ∧
  (∀ k, k ∈ s.pending → mapGet k s.task_status_map = some TaskStatus.running) ∧
  s.pending.Nodup

/-- The registry transitions permitted by the lifecycle: stay put, appear as
`Running`, or move from `Running` to a terminal status. -/
def MonoStep (a b : Option TaskStatus) : Prop :=
  a = b ∨
  (a = none ∧ b = some TaskStatus.running) ∨
  (∃ sid, a = some TaskStatus.running ∧ b = some (TaskStatus.completed sid)) ∨
  (∃ r, a = some TaskStatus.running ∧ b = some (TaskStatus.failed r))

/-- A concrete stored result with one data batch, held by the executor under
`sampleSid`. -/
def storedResult : ShufflePartition :=
  { schema := { fields := [{ name := "a"
                             data_type := arrow.DataType.other 0
                             nullable := true }] }
    data := [{ id := 7 }] }

def sampleTask1 : ExecutionTask := { key := "t1" }

def sampleTask2 : ExecutionTask := { key := "t2" }

def sampleSid : ShuffleId := { id := 42 }

def sampleEvs : List Event := [Event.exec sampleTask1]

/-- The state after admitting `"t1"` on a fresh service with bound 1. -/
def sampleRunningState : ServiceState :=
  { results_cache := []
    task_status_map := [("t1", TaskStatus.running)]
    concurrent_tasks := { concurrency_level := 1, max_concurrency := 1 }
    pending := ["t1"] }

/-- The state after the `"t1"` runner finishes successfully with `sampleSid`. -/
def sampleCompletedState : ServiceState :=
  { results_cache := []
    task_status_map :=
      [("t1", TaskStatus.completed sampleSid), ("t1", TaskStatus.running)]
    concurrent_tasks := { concurrency_level := 0, max_concurrency := 1 }
    pending := [] }

/-- A state whose results cache holds `storedResult` under `"u1"`. -/
def sampleCacheState : ServiceState :=
  { results_cache := [("u1", storedResult)]
    task_status_map := []
    concurrent_tasks := { concurrency_level := 0, max_concurrency := 1 }
    pending := [] }

/-- An executor `collect` holding exactly one shuffle output, `storedResult`
under `sampleSid`. Modelled from the spec: the executor collaborator's
`collect(shuffle_id) -> Result<ResultSet, ExecError>` answers an error for an
id with no stored result. -/
def sampleCollect (sid : ShuffleId) : Except BallistaError ShufflePartition :=
  if sid = sampleSid then Except.ok storedResult
  else Except.error { dbg := "no results for shuffle id" }

/-- An executor `execute_query` stub. Modelled from the spec: the executor
collaborator's `execute_query(plan) -> Result<ResultSet, ExecError>`. -/
def sampleQuery (_plan : LogicalPlan) : Except BallistaError ShufflePartition :=
  Except.error { dbg := "query error" }

/-- A decoder on which every payload fails to decode. Modelled from the spec:
`decode_protobuf` answers an error for an undecodable action payload. -/
def badDecode (_bytes : List Nat) : Except BallistaError physical_plan.Action :=
  Except.error { dbg := "decode failed" }

/-- A decoder producing a `FetchShuffle` for shuffle id 7 (which has no
stored result under `sampleCollect`). -/
def fetchDecode (_bytes : List Nat) : Except BallistaError physical_plan.Action :=
  Except.ok (physical_plan.Action.FetchShuffle { id := 7 })

/-- A decoder producing an `InteractiveQuery`. -/
def iqDecode (_bytes : List Nat) : Except BallistaError physical_plan.Action :=
  Except.ok (physical_plan.Action.InteractiveQuery { tag := 0 })

def sampleTicket : Ticket := { ticket := [0] }

def sampleDescriptor : FlightDescriptor := { path := [], cmd := [0] }

def sampleFlightAction : FlightAction := { action_type := "execute", body := [0] }

/-- A planner `create_physical_plan` stage that succeeds. Modelled from the
spec: `build_physical_plan(logical_plan) -> PhysicalPlan | PlanError`. -/
def cppOk (_lp : LogicalPlan) : Except BallistaError PhysicalPlan :=
  Except.ok { tag := 1 }

/-- A planner `ensure_requirements` stage that succeeds. Modelled from the
spec: `enforce_requirements(PhysicalPlan) -> PhysicalPlan | PlanError`. -/
def ensOk (p : PhysicalPlan) : Except BallistaError PhysicalPlan :=
  Except.ok p

/-- A planner `create_job` stage that succeeds. Modelled from the spec:
`build_job(PhysicalPlan) -> JobGraph | PlanError`. -/
def cjobOk (_p : PhysicalPlan) : Except BallistaError Job :=
  Except.ok { tag := 1 }

lemma monoStep_refl (a : Option TaskStatus) : MonoStep a a := Or.inl rfl

lemma mapGet_mapInsert {α : Type} (k k1 : String) (v : α)
    (m : List (String × α)) :
    mapGet k1 (mapInsert k v m) = if k = k1 then some v else mapGet k1 m :=
  rfl

lemma removeFirst_length (k : String) (l : List String) (hk : k ∈ l) :
    (removeFirst k l).length + 1 = l.length := by
  induction l with
  | nil => cases hk
  | cons x rest ih =>
    by_cases hx : x = k
    · simp [removeFirst, hx]
    · have hk2 : k ∈ rest := by
        rcases List.mem_cons.mp hk with h | h
        · exact absurd h.symm hx
        · exact h
      simp [removeFirst, hx, ih hk2]

lemma removeFirst_subset (k k1 : String) (l : List String)
    (h : k1 ∈ removeFirst k l) : k1 ∈ l := by
  induction l with
  | nil => simp [removeFirst] at h
  | cons x rest ih =>
    by_cases hx : x = k
    · rw [removeFirst, if_pos hx] at h
      exact List.mem_cons_of_mem _ h
    · rw [removeFirst, if_neg hx] at h
      rcases List.mem_cons.mp h with h1 | h1
      · exact List.mem_cons.mpr (Or.inl h1)
      · exact List.mem_cons_of_mem _ (ih h1)

lemma removeFirst_nodup (k : String) (l : List String) (h : l.Nodup) :
    (removeFirst k l).Nodup := by
  induction l with
  | nil => simp [removeFirst]
  | cons x rest ih =>
    rcases List.nodup_cons.mp h with ⟨hx, hrest⟩
    by_cases hxk : x = k
    · rw [removeFirst, if_pos hxk]
      exact hrest
    · rw [removeFirst, if_neg hxk]
      refine List.nodup_cons.mpr ⟨?_, ih hrest⟩
      intro hmem
      exact hx (removeFirst_subset k x rest hmem)

lemma removeFirst_not_mem (k : String) (l : List String) (h : l.Nodup) :
    k ∉ removeFirst k l := by
  induction l with
  | nil => simp [removeFirst]
  | cons x rest ih =>
    rcases List.nodup_cons.mp h with ⟨hx, hrest⟩
    by_cases hxk : x = k
    · rw [removeFirst, if_pos hxk]
      subst hxk
      exact hx
    · rw [removeFirst, if_neg hxk]
      intro hmem
      rcases List.mem_cons.mp hmem with h1 | h1
      · exact hxk h1.symm
      · exact ih hrest h1

lemma inc_of_lt (g : ConcurrencyGuard)
    (h : g.concurrency_level < g.max_concurrency) :
    ConcurrencyGuard.inc g =
      Except.ok (g.concurrency_level + 1,
        { g with concurrency_level := g.concurrency_level + 1 }) := by
  simp [ConcurrencyGuard.inc, h]

lemma inc_of_full (g : ConcurrencyGuard)
    (h : ¬ g.concurrency_level < g.max_concurrency) :
    ConcurrencyGuard.inc g =
      Except.error (Status.resource_exhausted "too many concurrent tasks") := by
  simp [ConcurrencyGuard.inc, h]

lemma runner_finish_eq (k : String) (outcome : Except String ShuffleId)
    (s : ServiceState) (h0 : s.concurrent_tasks.concurrency_level ≠ 0) :
    runner_finish k outcome s = some
      { s with
        task_status_map :=
          mapInsert k
            (match outcome with
              | Except.ok sid => TaskStatus.completed sid
              | Except.error e => TaskStatus.failed e)
            s.task_status_map
        concurrent_tasks :=
          { s.concurrent_tasks with
            concurrency_level := s.concurrent_tasks.concurrency_level - 1 }
        pending := removeFirst k s.pending } := by
  simp [runner_finish, ConcurrencyGuard.dec, h0]

lemma do_get_execute_inv (t : ExecutionTask) (s : ServiceState) (h : SysInv s) :
    SysInv (do_get_execute t s).2 := by
  obtain ⟨h1, h2, h3, h4⟩ := h
  cases hget : mapGet t.key s.task_status_map with
  | none =>
    by_cases hlt :
        s.concurrent_tasks.concurrency_level < s.concurrent_tasks.max_concurrency
    · simp only [do_get_execute, hget, inc_of_lt s.concurrent_tasks hlt]
      refine ⟨?_, ?_, ?_, ?_⟩
      · simp [h1]
      · simp only []
        omega
      · intro k hk
        rw [mapGet_mapInsert]
        rcases List.mem_cons.mp hk with h5 | h5
        · simp [h5]
        · have hne : t.key ≠ k := by
            intro he
            have h6 := h3 k h5
            rw [← he, hget] at h6
            cases h6
          simp [hne, h3 k h5]
      · refine List.nodup_cons.mpr ⟨?_, h4⟩
        intro hmem
        have h6 := h3 t.key hmem
        rw [hget] at h6
        cases h6
    · simp only [do_get_execute, hget, inc_of_full s.concurrent_tasks hlt]
      exact ⟨h1, h2, h3, h4⟩
  | some st =>
    cases st with
    | running => simp only [do_get_execute, hget]; exact ⟨h1, h2, h3, h4⟩
    | completed sid => simp only [do_get_execute, hget]; exact ⟨h1, h2, h3, h4⟩
    | failed r => simp only [do_get_execute, hget]; exact ⟨h1, h2, h3, h4⟩

lemma runner_finish_inv (k : String) (outcome : Except String ShuffleId)
    (s s1 : ServiceState) (h : SysInv s) (hk : k ∈ s.pending)
    (hr : runner_finish k outcome s = some s1) : SysInv s1 := by
  obtain ⟨h1, h2, h3, h4⟩ := h
  have hlen : 0 < s.pending.length :=
    List.length_pos.mpr (List.ne_nil_of_mem hk)
  have h0 : s.concurrent_tasks.concurrency_level ≠ 0 := by omega
  rw [runner_finish_eq k outcome s h0] at hr
  injection hr with hr
  subst hr
  have hrl := removeFirst_length k s.pending hk
  refine ⟨by simp; omega, by simp; omega, ?_, removeFirst_nodup k s.pending h4⟩
  intro k1 hk1
  have hk1m : k1 ∈ s.pending := removeFirst_subset k k1 s.pending hk1
  have hne : k ≠ k1 := by
    intro he
    subst he
    exact removeFirst_not_mem k s.pending h4 hk1
  simp only [mapGet_mapInsert, if_neg hne]
  exact h3 k1 hk1m

lemma do_get_execute_mono (t : ExecutionTask) (s : ServiceState) (k : String) :
    MonoStep (mapGet k s.task_status_map)
      (mapGet k (do_get_execute t s).2.task_status_map) := by
  cases hget : mapGet t.key s.task_status_map with
  | none =>
    by_cases hlt :
        s.concurrent_tasks.concurrency_level < s.concurrent_tasks.max_concurrency
    · simp only [do_get_execute, hget, inc_of_lt s.concurrent_tasks hlt]
      by_cases hk : t.key = k
      · subst hk
        simp only [mapGet_mapInsert, if_pos rfl]
        exact Or.inr (Or.inl ⟨hget, rfl⟩)
      · simp only [mapGet_mapInsert, if_neg hk]
        exact monoStep_refl _
    · simp only [do_get_execute, hget, inc_of_full s.concurrent_tasks hlt]
      exact monoStep_refl _
  | some st =>
    cases st with
    | running => simp only [do_get_execute, hget]; exact monoStep_refl _
    | completed sid => simp only [do_get_execute, hget]; exact monoStep_refl _
    | failed r => simp only [do_get_execute, hget]; exact monoStep_refl _

lemma runner_finish_mono (k : String) (outcome : Except String ShuffleId)
    (s s1 : ServiceState) (h : SysInv s) (hk : k ∈ s.pending)
    (hr : runner_finish k outcome s = some s1) (k1 : String) :
    MonoStep (mapGet k1 s.task_status_map) (mapGet k1 s1.task_status_map) := by
  obtain ⟨h1, h2, h3, h4⟩ := h
  have hlen : 0 < s.pending.length :=
    List.length_pos.mpr (List.ne_nil_of_mem hk)
  have h0 : s.concurrent_tasks.concurrency_level ≠ 0 := by omega
  rw [runner_finish_eq k outcome s h0] at hr
  injection hr with hr
  subst hr
  by_cases hke : k = k1
  · subst hke
    simp only [mapGet_mapInsert, if_pos rfl]
    have ha := h3 k hk
    cases outcome with
    | ok sid => exact Or.inr (Or.inr (Or.inl ⟨sid, ha, rfl⟩))
    | error e => exact Or.inr (Or.inr (Or.inr ⟨e, ha, rfl⟩))
  · simp only [mapGet_mapInsert, if_neg hke]
    exact monoStep_refl _

lemma step_inv (s s1 : ServiceState) (e : Event) (h : SysInv s)
    (hs : step s e = some s1) : SysInv s1 := by
  cases e with
  | exec t =>
    simp only [step] at hs
    injection hs with hs
    subst hs
    exact do_get_execute_inv t s h
  | finishOk k sid =>
    simp only [step] at hs
    by_cases hk : k ∈ s.pending
    · rw [if_pos hk] at hs
      exact runner_finish_inv k (Except.ok sid) s s1 h hk hs
    · rw [if_neg hk] at hs
      injection hs with hs
      subst hs
      exact h
  | finishErr k r =>
    simp only [step] at hs
    by_cases hk : k ∈ s.pending
    · rw [if_pos hk] at hs
      exact runner_finish_inv k (Except.error r) s s1 h hk hs
    · rw [if_neg hk] at hs
      injection hs with hs
      subst hs
      exact h

lemma step_isSome (s : ServiceState) (e : Event) (h : SysInv s) :
    (step s e).isSome := by
  obtain ⟨h1, h2, h3, h4⟩ := h
  cases e with
  | exec t => simp [step]
  | finishOk k sid =>
    by_cases hk : k ∈ s.pending
    · have hlen : 0 < s.pending.length :=
        List.length_pos.mpr (List.ne_nil_of_mem hk)
      have h0 : s.concurrent_tasks.concurrency_level ≠ 0 := by omega
      simp [step, hk, runner_finish_eq k (Except.ok sid) s h0]
    · simp [step, hk]
  | finishErr k r =>
    by_cases hk : k ∈ s.pending
    · have hlen : 0 < s.pending.length :=
        List.length_pos.mpr (List.ne_nil_of_mem hk)
      have h0 : s.concurrent_tasks.concurrency_level ≠ 0 := by omega
      simp [step, hk, runner_finish_eq k (Except.error r) s h0]
    · simp [step, hk]

lemma step_mono (s s1 : ServiceState) (e : Event) (h : SysInv s)
    (hs : step s e = some s1) (k : String) :
    MonoStep (mapGet k s.task_status_map) (mapGet k s1.task_status_map) := by
  cases e with
  | exec t =>
    simp only [step] at hs
    injection hs with hs
    subst hs
    exact do_get_execute_mono t s k
  | finishOk k0 sid =>
    simp only [step] at hs
    by_cases hk0 : k0 ∈ s.pending
    · rw [if_pos hk0] at hs
      exact runner_finish_mono k0 (Except.ok sid) s s1 h hk0 hs k
    · rw [if_neg hk0] at hs
      injection hs with hs
      subst hs
      exact monoStep_refl _
  | finishErr k0 r =>
    simp only [step] at hs
    by_cases hk0 : k0 ∈ s.pending
    · rw [if_pos hk0] at hs
      exact runner_finish_mono k0 (Except.error r) s s1 h hk0 hs k
    · rw [if_neg hk0] at hs
      injection hs with hs
      subst hs
      exact monoStep_refl _

lemma sysInv_init (limit : Nat) : SysInv (initState limit) := by
  refine ⟨rfl, Nat.zero_le _, ?_, List.nodup_nil⟩
  intro k hk
  cases hk

lemma runFrom_inv (evs : List Event) :
    ∀ s s1 : ServiceState, SysInv s → runFrom s evs = some s1 → SysInv s1 := by
  induction evs with
  | nil =>
    intro s s1 h hr
    simp only [runFrom] at hr
    injection hr with hr
    subst hr
    exact h
  | cons e rest ih =>
    intro s s1 h hr
    simp only [runFrom] at hr
    cases hstep : step s e with
    | none => rw [hstep] at hr; cases hr
    | some s2 =>
      rw [hstep] at hr
      exact ih s2 s1 (step_inv s s2 e h hstep) hr

lemma runFrom_isSome (evs : List Event) :
    ∀ s : ServiceState, SysInv s → (runFrom s evs).isSome := by
  induction evs with
  | nil => intro s _; simp [runFrom]
  | cons e rest ih =>
    intro s h
    have hs := step_isSome s e h
    cases hstep : step s e with
    | none => rw [hstep] at hs; simp at hs
    | some s2 =>
      simp only [runFrom, hstep]
      exact ih s2 (step_inv s s2 e h hstep)

lemma run_inv (limit : Nat) (evs : List Event) (s : ServiceState)
    (h : run limit evs = some s) : SysInv s :=
  runFrom_inv evs (initState limit) s (sysInv_init limit) h

lemma run_isSome (limit : Nat) (evs : List Event) : (run limit evs).isSome :=
  runFrom_isSome evs (initState limit) (sysInv_init limit)

lemma incSeq_ok (k : Nat) :
    ∀ g : ConcurrencyGuard, g.concurrency_level + k ≤ g.max_concurrency →
      incSeq k g =
        Except.ok { g with concurrency_level := g.concurrency_level + k } := by
  induction k with
  | zero => intro g h; simp [incSeq]
  | succ n ih =>
    intro g h
    have hlt : g.concurrency_level < g.max_concurrency := by omega
    have h2 := ih { g with concurrency_level := g.concurrency_level + 1 }
      (by simp; omega)
    simp only [incSeq, inc_of_lt g hlt, h2]
    have h3 : g.concurrency_level + 1 + n = g.concurrency_level + (n + 1) := by
      omega
    simp [h3]

/-- Claim C3: from a fresh guard with bound `N`, each of the first `N` admit
(`inc`) calls succeeds and returns the new count; the whole sequence of `N`
admits lands at level `N`; the `(N+1)`st admit before any release fails with
`resource_exhausted`; and after a single release (`dec`) one further admit
succeeds, returning `N` again. -/
theorem guard_admission_sequence (N : Nat) :
    (∀ k, k < N →
      ConcurrencyGuard.inc { concurrency_level := k, max_concurrency := N } =
        Except.ok (k + 1, { concurrency_level := k + 1, max_concurrency := N })) ∧
    incSeq N { concurrency_level := 0, max_concurrency := N } =
      Except.ok { concurrency_level := N, max_concurrency := N } ∧
    ConcurrencyGuard.inc { concurrency_level := N, max_concurrency := N } =
      Except.error (Status.resource_exhausted "too many concurrent tasks") ∧
    (0 < N →
      ConcurrencyGuard.dec { concurrency_level := N, max_concurrency := N } =
        some { concurrency_level := N - 1, max_concurrency := N } ∧
      ConcurrencyGuard.inc { concurrency_level := N - 1, max_concurrency := N } =
        Except.ok (N, { concurrency_level := N, max_concurrency := N })) := by
  refine ⟨?_, ?_, ?_, ?_⟩
  · intro k hk
    simp [ConcurrencyGuard.inc, hk]
  · have h := incSeq_ok N { concurrency_level := 0, max_concurrency := N }
      (by simp)
    simpa using h
  · simp [ConcurrencyGuard.inc]
  · intro hN
    have hne : N ≠ 0 := by omega
    have hlt : N - 1 < N := by omega
    have heq : N - 1 + 1 = N := by omega
    constructor
    · simp [ConcurrencyGuard.dec, hne]
    · simp [ConcurrencyGuard.inc, hlt, heq]

/-- Witness for `guard_admission_sequence` at `N = 2`. -/
theorem guard_admission_sequence_witness :
    ConcurrencyGuard.inc { concurrency_level := 1, max_concurrency := 2 } =
      Except.ok (2, { concurrency_level := 2, max_concurrency := 2 }) ∧
    incSeq 2 { concurrency_level := 0, max_concurrency := 2 } =
      Except.ok { concurrency_level := 2, max_concurrency := 2 } ∧
    ConcurrencyGuard.inc { concurrency_level := 2, max_concurrency := 2 } =
      Except.error (Status.resource_exhausted "too many concurrent tasks") ∧
    ConcurrencyGuard.dec { concurrency_level := 2, max_concurrency := 2 } =
      some { concurrency_level := 1, max_concurrency := 2 } ∧
    ConcurrencyGuard.inc { concurrency_level := 1, max_concurrency := 2 } =
      Except.ok (2, { concurrency_level := 2, max_concurrency := 2 }) := by
  obtain ⟨h1, h2, h3, h4⟩ := guard_admission_sequence 2
  exact ⟨h1 1 (by decide), h2, h3, (h4 (by decide)).1, (h4 (by decide)).2⟩

/-- Claim C10: `ConcurrencyGuard::dec` decrements unconditionally: at level 0
it underflows the unsigned counter (a debug-build panic, modelled as `none`)
instead of being rejected or ignored; at any positive level it simply
decrements. -/
theorem dec_unconditional_underflow :
    (∀ g : ConcurrencyGuard, g.concurrency_level = 0 →
      ConcurrencyGuard.dec g = none) ∧
    (∀ g : ConcurrencyGuard, g.concurrency_level ≠ 0 →
      ConcurrencyGuard.dec g =
        some { g with concurrency_level := g.concurrency_level - 1 }) := by
  constructor
  · intro g h
    simp [ConcurrencyGuard.dec, h]
  · intro g h
    simp [ConcurrencyGuard.dec, h]

/-- Witness for `dec_unconditional_underflow`. -/
theorem dec_unconditional_underflow_witness :
    ConcurrencyGuard.dec { concurrency_level := 0, max_concurrency := 4 } =
      none ∧
    ConcurrencyGuard.dec { concurrency_level := 3, max_concurrency := 4 } =
      some { concurrency_level := 2, max_concurrency := 4 } := by
  obtain ⟨h1, h2⟩ := dec_unconditional_underflow
  exact ⟨h1 { concurrency_level := 0, max_concurrency := 4 } rfl,
    h2 { concurrency_level := 3, max_concurrency := 4 } (by decide)⟩

/-- Claim C2: along every protocol trace (Execute requests and runner
completions) no step panics (the guard never underflows, so `0 ≤ current`
holds of the usize counter) and `current ≤ limit` holds in every reachable
state; moreover an admit (`inc`) attempted when `current = limit` answers
`resource_exhausted` leaving the guard unchanged, and at the `do_get` level
it leaves the whole service state unchanged. -/
theorem guard_bounded_invariant :
    (∀ (limit : Nat) (evs : List Event), (run limit evs).isSome) ∧
    (∀ (limit : Nat) (evs : List Event) (s : ServiceState),
      run limit evs = some s →
      s.concurrent_tasks.concurrency_level ≤
        s.concurrent_tasks.max_concurrency) ∧
    (∀ g : ConcurrencyGuard, g.concurrency_level = g.max_concurrency →
      ConcurrencyGuard.inc g =
        Except.error (Status.resource_exhausted "too many concurrent tasks")) ∧
    (∀ (t : ExecutionTask) (s : ServiceState),
      mapGet t.key s.task_status_map = none →
      s.concurrent_tasks.concurrency_level =
        s.concurrent_tasks.max_concurrency →
      do_get_execute t s =
        (Except.error (Status.resource_exhausted "too many concurrent tasks"),
          s)) := by
  refine ⟨run_isSome, ?_, ?_, ?_⟩
  · intro limit evs s h
    exact (run_inv limit evs s h).2.1
  · intro g h
    simp [ConcurrencyGuard.inc, h]
  · intro t s hget hfull
    simp [do_get_execute, hget, inc_of_full s.concurrent_tasks (by omega)]

/-- Witness for `guard_bounded_invariant` on a concrete saturated service. -/
theorem guard_bounded_invariant_witness :
    (run 1 sampleEvs).isSome ∧
    run 1 sampleEvs = some sampleRunningState ∧
    sampleRunningState.concurrent_tasks.concurrency_level ≤
      sampleRunningState.concurrent_tasks.max_concurrency ∧
    ConcurrencyGuard.inc { concurrency_level := 1, max_concurrency := 1 } =
      Except.error (Status.resource_exhausted "too many concurrent tasks") ∧
    mapGet sampleTask2.key sampleRunningState.task_status_map = none ∧
    do_get_execute sampleTask2 sampleRunningState =
      (Except.error (Status.resource_exhausted "too many concurrent tasks"),
        sampleRunningState) := by
  obtain ⟨w1, w2, w3, w4⟩ := guard_bounded_invariant
  exact ⟨w1 1 sampleEvs, by decide,
    w2 1 sampleEvs sampleRunningState (by decide),
    w3 { concurrency_level := 1, max_concurrency := 1 } rfl,
    by decide,
    w4 sampleTask2 sampleRunningState (by decide) rfl⟩

/-- Claim C5: for every reachable state and every further step (an Execute
request or a background-runner completion), each key's registry entry makes
only monotone moves: it stays put, appears as Running, or moves from Running
to Completed or Failed — never out of Completed or Failed. -/
theorem registry_lifecycle_monotonic (limit : Nat) (evs : List Event)
    (e : Event) (s1 s2 : ServiceState) (h1 : run limit evs = some s1)
    (h2 : step s1 e = some s2) (key : String) :
    MonoStep (mapGet key s1.task_status_map) (mapGet key s2.task_status_map) :=
  step_mono s1 s2 e (run_inv limit evs s1 h1) h2 key

/-- Witness for `registry_lifecycle_monotonic`: the runner completion of
`"t1"` moves it from Running to Completed. -/
theorem registry_lifecycle_monotonic_witness :
    run 1 sampleEvs = some sampleRunningState ∧
    step sampleRunningState (Event.finishOk "t1" sampleSid) =
      some sampleCompletedState ∧
    MonoStep (mapGet "t1" sampleRunningState.task_status_map)
      (mapGet "t1" sampleCompletedState.task_status_map) := by
  refine ⟨by decide, by decide, ?_⟩
  exact registry_lifecycle_monotonic 1 sampleEvs (Event.finishOk "t1" sampleSid)
    sampleRunningState sampleCompletedState (by decide) (by decide) "t1"

/-- Claim C4: a duplicate Execute submission for a key whose registry entry
is Running answers the distinguished `already_exists("task is still
running")` status and returns the service state untouched — no guard
increment, no registry change, and no second runner spawned (the pending set
is unchanged). -/
theorem duplicate_execute_while_running (t : ExecutionTask)
    (s : ServiceState)
    (h : mapGet t.key s.task_status_map = some TaskStatus.running) :
    do_get_execute t s =
      (Except.error (Status.already_exists "task is still running"), s) := by
  simp [do_get_execute, h]

/-- Witness for `duplicate_execute_while_running`. -/
theorem duplicate_execute_while_running_witness :
    mapGet sampleTask1.key sampleRunningState.task_status_map =
      some TaskStatus.running ∧
    do_get_execute sampleTask1 sampleRunningState =
      (Except.error (Status.already_exists "task is still running"),
        sampleRunningState) := by
  refine ⟨by decide, ?_⟩
  exact duplicate_execute_while_running sampleTask1 sampleRunningState
    (by decide)

/-- Claim C1 counterexample: after the runner completes `"t1"` with
`sampleSid` (whose stored executor result has one data batch), the Execute
poll answers a single hard-coded schema message — not a schema message
followed by one message per data batch of the stored result. -/
theorem completed_poll_cex :
    run 1 [Event.exec sampleTask1, Event.finishOk "t1" sampleSid] =
      some sampleCompletedState ∧
    mapGet "t1" sampleCompletedState.task_status_map =
      some (TaskStatus.completed sampleSid) ∧
    sampleCollect sampleSid = Except.ok storedResult ∧
    storedResult.data.length = 1 ∧
    (do_get_execute sampleTask1 sampleCompletedState).1 =
      Except.ok [FlightData.schemaMsg emptyResults.schema] ∧
    (do_get_execute sampleTask1 sampleCompletedState).1 ≠
      (Except.ok (frameResults storedResult) :
        Except Status (List FlightData)) := by
  refine ⟨by decide, by decide, by decide, by decide, by decide, by decide⟩

/-- Claim C1 (amended): for every key whose registry entry is Completed, an
Execute poll answers, idempotently and with the state unchanged, the fixed
framed result: exactly one schema-only message carrying the hard-coded
schema (single non-nullable Utf8 field `shuffle_id`) and zero batch
messages, regardless of the stored ShuffleId and of the runner-produced
data. -/
theorem completed_poll_fixed_result (t : ExecutionTask) (s : ServiceState)
    (sid : ShuffleId)
    (h : mapGet t.key s.task_status_map = some (TaskStatus.completed sid)) :
    do_get_execute t s =
      (Except.ok [FlightData.schemaMsg emptyResults.schema], s) := by
  simp [do_get_execute, h, frameResults, emptyResults]

/-- Witness for `completed_poll_fixed_result`. -/
theorem completed_poll_fixed_result_witness :
    mapGet sampleTask1.key sampleCompletedState.task_status_map =
      some (TaskStatus.completed sampleSid) ∧
    do_get_execute sampleTask1 sampleCompletedState =
      (Except.ok [FlightData.schemaMsg emptyResults.schema],
        sampleCompletedState) := by
  refine ⟨by decide, ?_⟩
  exact completed_poll_fixed_result sampleTask1 sampleCompletedState sampleSid
    (by decide)

/-- Claim C6 counterexample: on an undecodable payload `do_get` answers an
error whose status code is `internal` (via `to_tonic_err`), which is not the
`invalid_argument` code the claim names. -/
theorem decode_failure_cex :
    respStatusCode
      (do_get badDecode sampleCollect sampleQuery sampleTicket
        sampleRunningState).1 = some StatusCode.internal ∧
    respStatusCode
      (get_flight_info badDecode cppOk ensOk cjobOk sampleDescriptor) =
      some StatusCode.internal ∧
    some StatusCode.internal ≠ some StatusCode.invalid_argument := by
  refine ⟨by decide, by decide, by decide⟩

/-- Claim C6 (amended): for every inbound request whose action payload fails
to decode, each handler (`do_get`, `get_flight_info`, `do_action`) answers
immediately with an internal-code error wrapping the decode error's debug
text (`to_tonic_err`), with no retry and no state change. -/
theorem decode_failure_internal
    (decode : List Nat → Except BallistaError physical_plan.Action)
    (collect : ShuffleId → Except BallistaError ShufflePartition)
    (execute_query : LogicalPlan → Except BallistaError ShufflePartition)
    (cpp : LogicalPlan → Except BallistaError PhysicalPlan)
    (ens : PhysicalPlan → Except BallistaError PhysicalPlan)
    (cjob : PhysicalPlan → Except BallistaError Job)
    (t : Ticket) (req : FlightDescriptor) (fa : FlightAction)
    (s : ServiceState) (e1 e2 e3 : BallistaError)
    (h1 : decode t.ticket = Except.error e1)
    (h2 : decode req.cmd = Except.error e2)
    (h3 : decode fa.body = Except.error e3) :
    do_get decode collect execute_query t s =
      (Except.error (Status.internal e1.dbg), s) ∧
    get_flight_info decode cpp ens cjob req =
      Except.error (Status.internal e2.dbg) ∧
    do_action decode fa s =
      some (Except.error (Status.internal e3.dbg), s) := by
  refine ⟨?_, ?_, ?_⟩
  · simp [do_get, h1, to_tonic_err]
  · simp [get_flight_info, h2, to_tonic_err]
  · simp [do_action, h3, to_tonic_err]

/-- Witness for `decode_failure_internal` with a concrete failing decoder. -/
theorem decode_failure_internal_witness :
    badDecode sampleTicket.ticket =
      Except.error { dbg := "decode failed" } ∧
    badDecode sampleDescriptor.cmd =
      Except.error { dbg := "decode failed" } ∧
    badDecode sampleFlightAction.body =
      Except.error { dbg := "decode failed" } ∧
    do_get badDecode sampleCollect sampleQuery sampleTicket
      sampleRunningState =
      (Except.error (Status.internal "decode failed"), sampleRunningState) ∧
    get_flight_info badDecode cppOk ensOk cjobOk sampleDescriptor =
      Except.error (Status.internal "decode failed") ∧
    do_action badDecode sampleFlightAction sampleRunningState =
      some (Except.error (Status.internal "decode failed"),
        sampleRunningState) := by
  have h := decode_failure_internal badDecode sampleCollect sampleQuery
    cppOk ensOk cjobOk sampleTicket sampleDescriptor sampleFlightAction
    sampleRunningState { dbg := "decode failed" } { dbg := "decode failed" }
    { dbg := "decode failed" } rfl rfl rfl
  exact ⟨rfl, rfl, rfl, h.1, h.2.1, h.2.2⟩

/-- Claim C7 counterexample: `FetchShuffle` of shuffle id 7, which has no
stored result under `sampleCollect`, answers an error with code `internal`
(via `to_tonic_err`), which is not the `not_found` code the claim names. -/
theorem fetch_shuffle_miss_cex :
    sampleCollect { id := 7 } =
      Except.error { dbg := "no results for shuffle id" } ∧
    respStatusCode
      (do_get fetchDecode sampleCollect sampleQuery sampleTicket
        sampleRunningState).1 = some StatusCode.internal ∧
    some StatusCode.internal ≠ some StatusCode.not_found := by
  refine ⟨by decide, by decide, by decide⟩

/-- Claim C7 (amended): for every `FetchShuffle(id)` whose id has no stored
result (the executor's `collect` answers an error), `do_get` answers an
internal-code error wrapping the executor error's debug text — not
not-found — and performs no interaction with the task status registry, the
concurrency guard, or any other service state (the state is returned
unchanged). -/
theorem fetch_shuffle_miss
    (decode : List Nat → Except BallistaError physical_plan.Action)
    (collect : ShuffleId → Except BallistaError ShufflePartition)
    (execute_query : LogicalPlan → Except BallistaError ShufflePartition)
    (t : Ticket) (sid : ShuffleId) (e : BallistaError) (s : ServiceState)
    (h1 : decode t.ticket =
      Except.ok (physical_plan.Action.FetchShuffle sid))
    (h2 : collect sid = Except.error e) :
    do_get decode collect execute_query t s =
      (Except.error (Status.internal e.dbg), s) := by
  simp [do_get, h1, h2, to_tonic_err]

/-- Witness for `fetch_shuffle_miss`. -/
theorem fetch_shuffle_miss_witness :
    fetchDecode sampleTicket.ticket =
      Except.ok (physical_plan.Action.FetchShuffle { id := 7 }) ∧
    sampleCollect { id := 7 } =
      Except.error { dbg := "no results for shuffle id" } ∧
    do_get fetchDecode sampleCollect sampleQuery sampleTicket
      sampleRunningState =
      (Except.error (Status.internal "no results for shuffle id"),
        sampleRunningState) := by
  refine ⟨rfl, by decide, ?_⟩
  exact fetch_shuffle_miss fetchDecode sampleCollect sampleQuery sampleTicket
    { id := 7 } { dbg := "no results for shuffle id" } sampleRunningState rfl
    (by decide)

/-- Claim C8: on an InteractiveQuery planning request on which all three
planner stages succeed, `get_flight_info` answers
`Status::invalid_argument("not implemented yet")` — i.e. the
unimplemented-stage-dispatch signal carries the `invalid_argument` status
code and is therefore not distinct from the invalid-argument signal (the
source's other unimplemented endpoints use `Status::unimplemented`). -/
theorem interactive_query_not_implemented_code
    (decode : List Nat → Except BallistaError physical_plan.Action)
    (cpp : LogicalPlan → Except BallistaError PhysicalPlan)
    (ens : PhysicalPlan → Except BallistaError PhysicalPlan)
    (cjob : PhysicalPlan → Except BallistaError Job)
    (req : FlightDescriptor) (lp : LogicalPlan) (p1 p2 : PhysicalPlan)
    (jb : Job)
    (h1 : decode req.cmd =
      Except.ok (physical_plan.Action.InteractiveQuery lp))
    (h2 : cpp lp = Except.ok p1) (h3 : ens p1 = Except.ok p2)
    (h4 : cjob p2 = Except.ok jb) :
    get_flight_info decode cpp ens cjob req =
      Except.error (Status.invalid_argument "not implemented yet") ∧
    (Status.invalid_argument "not implemented yet").code ≠
      StatusCode.unimplemented ∧
    (Status.invalid_argument "not implemented yet").code =
      StatusCode.invalid_argument := by
  refine ⟨?_, by decide, rfl⟩
  simp [get_flight_info, h1, h2, h3, h4]

/-- Witness for `interactive_query_not_implemented_code`. -/
theorem interactive_query_not_implemented_code_witness :
    iqDecode sampleDescriptor.cmd =
      Except.ok (physical_plan.Action.InteractiveQuery { tag := 0 }) ∧
    cppOk { tag := 0 } = Except.ok { tag := 1 } ∧
    ensOk { tag := 1 } = Except.ok { tag := 1 } ∧
    cjobOk { tag := 1 } = Except.ok { tag := 1 } ∧
    get_flight_info iqDecode cppOk ensOk cjobOk sampleDescriptor =
      Except.error (Status.invalid_argument "not implemented yet") := by
  refine ⟨rfl, rfl, rfl, rfl, ?_⟩
  exact (interactive_query_not_implemented_code iqDecode cppOk ensOk cjobOk
    sampleDescriptor { tag := 0 } { tag := 1 } { tag := 1 } { tag := 1 }
    rfl rfl rfl rfl).1

/-- Claim C9: `get_schema` reads `request.path[0]` with no emptiness check:
an empty path panics (out-of-bounds index, modelled as `none`) instead of
returning an error response; a non-empty path answers the stored schema or a
`not_found` error. -/
theorem get_schema_empty_path_panics :
    (∀ (req : FlightDescriptor) (s : ServiceState), req.path = [] →
      get_schema req s = none) ∧
    (∀ (req : FlightDescriptor) (s : ServiceState) (uuid : String)
      (rest : List String), req.path = uuid :: rest →
      get_schema req s = some
        (match mapGet uuid s.results_cache with
          | some results => Except.ok { schema := results.schema }
          | none => Except.error (Status.not_found "Invalid uuid"))) := by
  constructor
  · intro req s h
    simp [get_schema, h]
  · intro req s uuid rest h
    simp only [get_schema, h]
    cases mapGet uuid s.results_cache <;> rfl

/-- Witness for `get_schema_empty_path_panics`: an empty path panics; a
present uuid answers its stored schema; an absent uuid answers not-found. -/
theorem get_schema_empty_path_panics_witness :
    get_schema { path := [], cmd := [] } sampleCacheState = none ∧
    get_schema { path := ["u1"], cmd := [] } sampleCacheState =
      some (Except.ok { schema := storedResult.schema }) ∧
    get_schema { path := ["u2"], cmd := [] } sampleCacheState =
      some (Except.error (Status.not_found "Invalid uuid")) := by
  obtain ⟨w1, w2⟩ := get_schema_empty_path_panics
  refine ⟨w1 { path := [], cmd := [] } sampleCacheState rfl, ?_, ?_⟩
  · have h := w2 { path := ["u1"], cmd := [] } sampleCacheState "u1" [] rfl
    rw [h]
    decide
  · have h := w2 { path := ["u2"], cmd := [] } sampleCacheState "u2" [] rfl
    rw [h]
    decide
